import Mathlib

/-!
Verification of the OpenHQM message-processing pipeline against its
natural-language specification.

The development shallowly embeds the Python source of the repository:

* `Val` models Python/JSON values as they flow through queue messages;
* `get_nested_value` embeds `openhqm/utils/helpers.py`;
* the routing engine (`match_route`, `route_select`) embeds
  `openhqm/routing/engine.py`, with Python `re` patterns embedded as
  regular-expression ASTs and matched by Brzozowski derivatives
  (`reMatch` is `re.match`, anchored at the start only; `reFullmatch`
  is `re.fullmatch`);
* the partition manager embeds `openhqm/partitioning/manager.py`, with
  `hashlib.sha256` implemented bit-for-bit from FIPS 180-4;
* the processor error paths embed `openhqm/worker/processor.py`, with
  the outbound HTTP call abstracted as an oracle outcome;
* the worker per-message handler embeds `openhqm/worker/worker.py` as a
  pure function from a message and a processing outcome to the list of
  cache writes and queue publishes it performs;
* the response query handler embeds `get_response` from
  `openhqm/api/routes.py`.

I/O (cache writes, queue publishes) is modelled on its success path: the
source logs and swallows failures of those calls, and no property below
depends on them failing.
-/

set_option maxRecDepth 4096

/-- A Python/JSON value as it appears inside a queue message: `None`,
booleans, integers, strings, lists and string-keyed dicts.  Dicts are
association lists; Python dicts have unique keys, which lookup as
first-match models faithfully. -/
inductive Val where
  | vnull
  | vbool (b : Bool)
  | vint (n : Int)
  | vstr (s : String)
  | vlist (xs : List Val)
  | vdict (entries : List (String × Val))

/-- Python `dict.get(key)`: the bound value, or `None` when the key is
absent. -/
def dictGet (entries : List (String × Val)) (key : String) : Val :=
  match entries with
  | [] => .vnull
  | (k, v) :: rest => if k = key then v else dictGet rest key

/-- Python `dict[key]` viewed totally: `some` of the bound value, or
`none` where the source would raise `KeyError`. -/
def dictFind (entries : List (String × Val)) (key : String) : Option Val :=
  match entries with
  | [] => none
  | (k, v) :: rest => if k = key then some v else dictFind rest key

/-- Python `d[key] = v`: replace the binding in place when the key
exists, otherwise append it (dict insertion order). -/
def dictSet (entries : List (String × Val)) (key : String) (v : Val) :
    List (String × Val) :=
  match entries with
  | [] => [(key, v)]
  | (k, w) :: rest =>
      if k = key then (k, v) :: rest else (k, w) :: dictSet rest key v

/-- Python `\x7b**a, **b\x7d`: the entries of `a` updated in place by the
entries of `b`, new keys appended in order. -/
def dictMerge (a b : List (String × Val)) : List (String × Val) :=
  match b with
  | [] => a
  | (k, v) :: rest => dictMerge (dictSet a k v) rest

/-- An ASCII single quote, as Python `repr` puts around strings. -/
def pyQuote : String := (Char.ofNat 39).toString

mutual

/-- Python `repr` of a value, to the fidelity the claims need: scalars
are exact; strings are single-quoted without escaping (no claim reaches
a string needing escapes). -/
def pyRepr : Val → String
  | .vnull => "None"
  | .vbool true => "True"
  | .vbool false => "False"
  | .vint n => toString n
  | .vstr s => pyQuote ++ s ++ pyQuote
  | .vlist xs => "[" ++ pyReprList xs ++ "]"
  | .vdict d => "\x7b" ++ pyReprEntries d ++ "\x7d"

/-- Comma-joined `repr`s of list elements. -/
def pyReprList : List Val → String
  | [] => ""
  | [x] => pyRepr x
  | x :: xs => pyRepr x ++ ", " ++ pyReprList xs

/-- Comma-joined `key: value` pairs of a dict `repr`. -/
def pyReprEntries : List (String × Val) → String
  | [] => ""
  | [(k, v)] => pyQuote ++ k ++ pyQuote ++ ": " ++ pyRepr v
  | (k, v) :: xs => pyQuote ++ k ++ pyQuote ++ ": " ++ pyRepr v ++ ", " ++ pyReprEntries xs

end

/-- Python `str` of a value: the string itself for strings, `repr`-like
rendering otherwise (exactly `repr` for the remaining cases the source
can reach). -/
def pyStr : Val → String
  | .vstr s => s
  | v => pyRepr v

/-- Python truthiness of an optional string field (`None` and the empty
string are falsy), as used by `if route.match_field:` and friends. -/
def optStrTruthy : Option String → Bool
  | none => false
  | some s => !s.isEmpty

/-- Shallow embedding of `get_nested_value` from
`src/openhqm/utils/helpers.py`, after the `path.split(".")`: walk the
key list, descending through dicts with `dict.get` and answering `None`
as soon as a non-dict value is reached with keys still pending. -/
def getNestedKeys (v : Val) : List String → Val
  | [] => v
  | k :: ks =>
      match v with
      | .vdict d => getNestedKeys (dictGet d k) ks
      | _ => .vnull

/-- Python `str.split` on a single-character separator, with the
accumulated current segment: splitting never drops separators and the
empty string splits to `[""]`, exactly as in Python. -/
def pySplitAux (sep : Char) (cur : List Char) : List Char → List String
  | [] => [String.mk cur]
  | c :: cs =>
      if c = sep then String.mk cur :: pySplitAux sep [] cs
      else pySplitAux sep (cur ++ [c]) cs

/-- Python `path.split(".")`. -/
def pySplitDot (path : String) : List String :=
  pySplitAux (Char.ofNat 46) [] path.data

/-- Shallow embedding of `get_nested_value(data, path)`: split the
dot-path exactly as Python `str.split(".")` does and walk the keys. -/
def get_nested_value (data : Val) (path : String) : Val :=
  getNestedKeys data (pySplitDot path)

/-- Regular expressions as Python `re` compiles them, to the generality
the routing claims need: empty language, empty string, single
character, any character (`.`), alternation, concatenation and star. -/
inductive Reg where
  | emp
  | eps
  | chr (c : Char)
  | anychar
  | alt (r1 r2 : Reg)
  | cat (r1 r2 : Reg)
  | star (r : Reg)

/-- Does the regex accept the empty string? -/
def Reg.nullable : Reg → Bool
  | .emp => false
  | .eps => true
  | .chr _ => false
  | .anychar => false
  | .alt r1 r2 => r1.nullable || r2.nullable
  | .cat r1 r2 => r1.nullable && r2.nullable
  | .star _ => true

/-- Brzozowski derivative of a regex by one character. -/
def Reg.deriv : Reg → Char → Reg
  | .emp, _ => .emp
  | .eps, _ => .emp
  | .chr c, a => if c = a then .eps else .emp
  | .anychar, _ => .eps
  | .alt r1 r2, a => .alt (r1.deriv a) (r2.deriv a)
  | .cat r1 r2, a =>
      if r1.nullable then .alt (.cat (r1.deriv a) r2) (r2.deriv a)
      else .cat (r1.deriv a) r2
  | .star r, a => .cat (r.deriv a) (.star r)

/-- Python `re.fullmatch` truthiness: the regex matches the whole
string. -/
def reFullmatch (r : Reg) : List Char → Bool
  | [] => r.nullable
  | c :: cs => reFullmatch (r.deriv c) cs

/-- Python `re.match` truthiness: the regex matches at position 0, that
is, it matches some (possibly empty, possibly proper) leading segment
of the string.  It is anchored at the start only. -/
def reMatch (r : Reg) : List Char → Bool
  | [] => r.nullable
  | c :: cs => r.nullable || reMatch (r.deriv c) cs

/-- A route record from `openhqm/routing/models.py`, restricted to the
fields the matching and selection logic of the engine reads (the
transformation fields of the source are never consulted by
`_match_route` or by route selection, and no claim mentions them).
Patterns arrive already compiled: a `match_pattern` of `none` covers
both an unset pattern and the empty pattern string, which Python
truthiness treats alike. -/
structure Route where
  name : String
  match_field : Option String := none
  match_value : Option String := none
  match_pattern : Option Reg := none
  is_default : Bool := false
  priority : Int := 0
  endpoint : String := ""
  enabled : Bool := true

/-- Shallow embedding of `RoutingEngine._match_route`: a default route
matches everything; so does a route whose `match_field` is falsy;
otherwise resolve the field, fail on `None`, then compare by
`match_value` (string equality on the coerced value) when that is
truthy, else by `match_pattern` through `re.match`, else fail. -/
def match_route (route : Route) (message : Val) : Bool :=
  if route.is_default then true
  else if !optStrTruthy route.match_field then true
  else
    match get_nested_value message (route.match_field.getD "") with
    | .vnull => false
    | v =>
        if optStrTruthy route.match_value then
          pyStr v == route.match_value.getD ""
        else
          match route.match_pattern with
          | some p => reMatch p (pyStr v).data
          | none => false

/-- Insert a route into a list already sorted by descending priority,
after every element of priority greater than or equal to its own: this
is the stable descending sort that Python
`sorted(routes, key=priority, reverse=True)` performs. -/
def insertByPriority (r : Route) : List Route → List Route
  | [] => [r]
  | x :: xs =>
      if r.priority ≤ x.priority then x :: insertByPriority r xs
      else r :: x :: xs

/-- Stable sort of routes by descending priority (equal priorities keep
their configuration order), as computed once in
`RoutingEngine.__init__`. -/
def sortRoutes (rs : List Route) : List Route :=
  rs.foldl (fun acc r => insertByPriority r acc) []

/-- The `_routes_sorted` field of the engine: the enabled routes of the
configuration, sorted by descending priority. -/
def routes_sorted (routes : List Route) : List Route :=
  sortRoutes (routes.filter (·.enabled))

/-- The route-selection loop of `RoutingEngine.route`: scan
`_routes_sorted` in order and keep the first route that matches the
message (`None` when no route matches, in which case the source falls
back to the default endpoint or raises). -/
def route_select (routes : List Route) (message : Val) : Option Route :=
  (routes_sorted routes).find? (fun r => match_route r message)

/-- Truncation to a 32-bit word, making every overflow in the hash
arithmetic explicit. -/
def w32 (x : Nat) : Nat := x % 4294967296

/-- Right rotation of a 32-bit word. -/
def rotr32 (n x : Nat) : Nat := w32 ((x >>> n) ||| (x <<< (32 - n)))

/-- The SHA-256 choice function. -/
def shaCh (x y z : Nat) : Nat := (x &&& y) ^^^ ((x ^^^ 4294967295) &&& z)

/-- The SHA-256 majority function. -/
def shaMaj (x y z : Nat) : Nat := (x &&& y) ^^^ (x &&& z) ^^^ (y &&& z)

/-- The SHA-256 big sigma-0 function. -/
def bigS0 (x : Nat) : Nat := rotr32 2 x ^^^ rotr32 13 x ^^^ rotr32 22 x

/-- The SHA-256 big sigma-1 function. -/
def bigS1 (x : Nat) : Nat := rotr32 6 x ^^^ rotr32 11 x ^^^ rotr32 25 x

/-- The SHA-256 small sigma-0 function. -/
def smallS0 (x : Nat) : Nat := rotr32 7 x ^^^ rotr32 18 x ^^^ (x >>> 3)

/-- The SHA-256 small sigma-1 function. -/
def smallS1 (x : Nat) : Nat := rotr32 17 x ^^^ rotr32 19 x ^^^ (x >>> 10)

/-- The 64 SHA-256 round constants (FIPS 180-4). -/
def K256 : List Nat :=
  [1116352408, 1899447441, 3049323471, 3921009573, 961987163,
   1508970993, 2453635748, 2870763221, 3624381080, 310598401,
   607225278, 1426881987, 1925078388, 2162078206, 2614888103,
   3248222580, 3835390401, 4022224774, 264347078, 604807628,
   770255983, 1249150122, 1555081692, 1996064986, 2554220882,
   2821834349, 2952996808, 3210313671, 3336571891, 3584528711,
   113926993, 338241895, 666307205, 773529912, 1294757372,
   1396182291, 1695183700, 1986661051, 2177026350, 2456956037,
   2730485921, 2820302411, 3259730800, 3345764771, 3516065817,
   3600352804, 4094571909, 275423344, 430227734, 506948616,
   659060556, 883997877, 958139571, 1322822218, 1537002063,
   1747873779, 1955562222, 2024104815, 2227730452, 2361852424,
   2428436474, 2756734187, 3204031479, 3329325298]

/-- SHA-256 padding: append the 0x80 byte, zeros up to 56 mod 64, and
the bit length as eight big-endian bytes. -/
def shaPad (msg : List Nat) : List Nat :=
  let L := msg.length
  let k := (64 - ((L + 9) % 64)) % 64
  msg ++ [128] ++ List.replicate k 0 ++
    (List.range 8).map (fun i => (8 * L >>> (8 * (7 - i))) % 256)

/-- Split a byte list into 64-byte blocks, with enough fuel to consume
the whole list (structural recursion on the fuel, so that the kernel
can evaluate digests). -/
def blocksFuel : Nat → List Nat → List (List Nat)
  | 0, _ => []
  | fuel + 1, l => if l = [] then [] else l.take 64 :: blocksFuel fuel (l.drop 64)

/-- Split the padded message into 64-byte blocks. -/
def blocks512 (l : List Nat) : List (List Nat) := blocksFuel l.length l

/-- The sixteen big-endian 32-bit words of one block. -/
def words16 (block : List Nat) : List Nat :=
  (List.range 16).map (fun i =>
    block.getD (4 * i) 0 * 16777216 + block.getD (4 * i + 1) 0 * 65536 +
    block.getD (4 * i + 2) 0 * 256 + block.getD (4 * i + 3) 0)

/-- Extend the sixteen block words to the 64-entry message schedule. -/
def schedule (ws : List Nat) : List Nat :=
  (List.range 48).foldl
    (fun acc _ =>
      acc ++ [w32 (smallS1 (acc.getD (acc.length - 2) 0) +
                   acc.getD (acc.length - 7) 0 +
                   smallS0 (acc.getD (acc.length - 15) 0) +
                   acc.getD (acc.length - 16) 0)])
    ws

/-- The eight 32-bit working variables of the SHA-256 compression. -/
structure Sha256State where
  a : Nat
  b : Nat
  c : Nat
  d : Nat
  e : Nat
  f : Nat
  g : Nat
  h : Nat

/-- The SHA-256 initial hash value (FIPS 180-4). -/
def sha256Init : Sha256State :=
  ⟨1779033703, 3144134277, 1013904242, 2773480762,
   1359893119, 2600822924, 528734635, 1541459225⟩

/-- One round of the SHA-256 compression function. -/
def compressRound (W : List Nat) (s : Sha256State) (t : Nat) : Sha256State :=
  let t1 := w32 (s.h + bigS1 s.e + shaCh s.e s.f s.g + K256.getD t 0 + W.getD t 0)
  let t2 := w32 (bigS0 s.a + shaMaj s.a s.b s.c)
  ⟨w32 (t1 + t2), s.a, s.b, s.c, w32 (s.d + t1), s.e, s.f, s.g⟩

/-- Process one 64-byte block: 64 rounds, then add the intermediate
state word-wise. -/
def compressBlock (s0 : Sha256State) (block : List Nat) : Sha256State :=
  let W := schedule (words16 block)
  let s := (List.range 64).foldl (compressRound W) s0
  ⟨w32 (s0.a + s.a), w32 (s0.b + s.b), w32 (s0.c + s.c), w32 (s0.d + s.d),
   w32 (s0.e + s.e), w32 (s0.f + s.f), w32 (s0.g + s.g), w32 (s0.h + s.h)⟩

/-- The four big-endian bytes of a 32-bit word. -/
def be32 (x : Nat) : List Nat :=
  [(x >>> 24) % 256, (x >>> 16) % 256, (x >>> 8) % 256, x % 256]

/-- SHA-256 of a byte string, as its 32 digest bytes. -/
def sha256Bytes (msg : List Nat) : List Nat :=
  let s := (blocks512 (shaPad msg)).foldl compressBlock sha256Init
  be32 s.a ++ be32 s.b ++ be32 s.c ++ be32 s.d ++
  be32 s.e ++ be32 s.f ++ be32 s.g ++ be32 s.h

/-- A nibble as its lowercase hex character. -/
def hexChar (n : Nat) : Char :=
  if n < 10 then Char.ofNat (48 + n) else Char.ofNat (87 + n)

/-- A byte as its two hex characters. -/
def byteHex (b : Nat) : List Char := [hexChar (b / 16), hexChar (b % 16)]

/-- A byte string as its lowercase hex characters, as
`hashlib.sha256(...).hexdigest()` renders the digest. -/
def hexOfBytes (bs : List Nat) : List Char :=
  bs.foldr (fun b acc => byteHex b ++ acc) []

/-- The numeric value of a lowercase hex character. -/
def hexVal (c : Char) : Nat :=
  if 97 ≤ c.toNat then c.toNat - 87 else c.toNat - 48

/-- Python `int(s, 16)` on a lowercase hex string. -/
def intOfHex (cs : List Char) : Nat :=
  cs.foldl (fun a c => 16 * a + hexVal c) 0

/-- The UTF-8 bytes of a string, Python `key.encode()` (the byte list
underlying `String.toUTF8`, kept as a plain list so the kernel can
evaluate it). -/
def strBytes (s : String) : List Nat :=
  (s.data.flatMap String.utf8EncodeChar).map (·.toNat)

/-- Shallow embedding of `PartitionManager._hash_key`:
`int(hashlib.sha256(key.encode()).hexdigest(), 16)`. -/
def hash_key (key : String) : Nat :=
  intOfHex (hexOfBytes (sha256Bytes (strBytes key)))

/-- The SHA-256 digest of a byte string read as a big-endian integer
(what the spec calls `sha256(key)` as a number). -/
def sha256Int (msg : List Nat) : Nat :=
  (sha256Bytes msg).foldl (fun a b => 256 * a + b) 0

/-- Cross-check of the digest pipeline against the FIPS 180-4 test
vector for "abc", evaluated by the kernel. -/
theorem sha256_abc_vector :
    String.mk (hexOfBytes (sha256Bytes (strBytes "abc"))) =
      "ba7816bf8f01cfea414140de5dae2223b00361a396177a9cb410ff61f20015ad" := by
  decide

/-- Partition strategies from `openhqm/partitioning/models.py`. -/
inductive PartitionStrategy where
  | hash
  | key
  | round_robin
  | sticky
deriving DecidableEq

/-- Partition configuration from `openhqm/partitioning/models.py`,
restricted to the fields the manager logic reads. -/
structure PartitionConfig where
  enabled : Bool := false
  strategy : PartitionStrategy := .sticky
  partition_count : Nat := 10
  partition_key_field : String := "metadata.partition_key"
  session_key_field : String := "metadata.session_id"

/-- Shallow embedding of `PartitionManager._assign_partition`:
hash, sticky and key strategies hash the key and reduce modulo the
partition count; round_robin uses the wall clock in milliseconds,
passed here as the explicit `nowMs` argument.  (The final `else` of the
source is unreachable: the four strategies are exhaustive.) -/
def assign_partition (cfg : PartitionConfig) (nowMs : Nat) (key : String) : Nat :=
  match cfg.strategy with
  | .hash => hash_key key % cfg.partition_count
  | .sticky => hash_key key % cfg.partition_count
  | .key => hash_key key % cfg.partition_count
  | .round_robin => nowMs % cfg.partition_count

/-- Shallow embedding of `PartitionManager.assign_worker_partitions`:
the set of partitions this worker ends up owning, namely every
`p < partition_count` with `p % worker_count == worker_index`. -/
def assign_worker_partitions (partition_count worker_count worker_index : Nat) :
    List Nat :=
  (List.range partition_count).filter (fun p => p % worker_count == worker_index)

/-- A partition key as the manager uses it: the source feeds the field
value to `str.encode`, so only non-empty strings act as keys (`None`
and the empty string are falsy and fall through; non-string values are
outside every claim and would fail in the source with an attribute
error before reaching a partition). -/
def strKeyOf (v : Val) : Option String :=
  match v with
  | .vstr s => if s.isEmpty then none else some s
  | _ => none

/-- The in-process state of a `PartitionManager`: its configuration and
the partitions assigned to this worker. -/
structure PartitionManager where
  config : PartitionConfig
  worker_id : String := ""
  worker_partitions : List Nat := []

/-- Shallow embedding of `PartitionManager.get_partition_for_message`:
`None` when partitioning is disabled; otherwise extract the partition
key (preferring `partition_key_field`, falling back to
`session_key_field`), `None` when neither is present, else the assigned
partition. -/
def get_partition_for_message (pm : PartitionManager) (nowMs : Nat)
    (message : Val) : Option Nat :=
  if !pm.config.enabled then none
  else
    match strKeyOf (get_nested_value message pm.config.partition_key_field) with
    | some k => some (assign_partition pm.config nowMs k)
    | none =>
        match strKeyOf (get_nested_value message pm.config.session_key_field) with
        | some k => some (assign_partition pm.config nowMs k)
        | none => none

/-- Shallow embedding of `PartitionManager.should_process_message`:
process everything when partitioning is disabled or no partition can be
determined; otherwise process exactly when this worker owns the
partition. -/
def should_process_message (pm : PartitionManager) (nowMs : Nat)
    (message : Val) : Bool :=
  if !pm.config.enabled then true
  else
    match get_partition_for_message pm nowMs message with
    | none => true
    | some pid => pm.worker_partitions.contains pid

/-- General Python truthiness of a value, as `if not metadata:` and
`if response_data:` test it. -/
def pyTruthy : Val → Bool
  | .vnull => false
  | .vbool b => b
  | .vint n => n != 0
  | .vstr s => !s.isEmpty
  | .vlist xs => !xs.isEmpty
  | .vdict d => !d.isEmpty

/-- The exception classes of `openhqm/exceptions.py` that the worker
and processor paths raise or dispatch on.  In the source,
`RetryableError` and `FatalError` are subclasses of `ProcessingError`;
an instance of the base `ProcessingError` is neither. -/
inductive PyExc where
  | retryable (msg : String)
  | fatal (msg : String)
  | processing (msg : String)
  | configuration (msg : String)
  | other (msg : String)

/-- Python `except RetryableError`: true exactly for instances of
`RetryableError`.  A plain `ProcessingError` is the superclass, not a
subclass, so it is not caught. -/
def isRetryableError : PyExc → Bool
  | .retryable _ => true
  | _ => false

/-- Python `except FatalError`. -/
def isFatalError : PyExc → Bool
  | .fatal _ => true
  | _ => false

/-- Python `str(e)` on an exception: its message. -/
def excMessage : PyExc → String
  | .retryable m => m
  | .fatal m => m
  | .processing m => m
  | .configuration m => m
  | .other m => m

/-- The outcome of the outbound `aiohttp` request, the one step of
`MessageProcessor.process` that leaves the process.  The four cases are
the four handlers at the tail of the source. -/
inductive HttpOutcome where
  | ok (body : Val) (status : Nat) (headers : List (String × String))
  | clientError (msg : String)
  | timeoutErr
  | unexpected (msg : String)

/-- The error mapping at the tail of `MessageProcessor.process`:
`aiohttp.ClientError` and `TimeoutError` and any unexpected exception
are each re-raised as the base `ProcessingError` class. -/
def forwardOutcome (http : HttpOutcome) :
    Except PyExc (Val × Nat × List (String × String)) :=
  match http with
  | .ok body status headers => .ok (body, status, headers)
  | .clientError m => .error (.processing ("Failed to proxy request: " ++ m))
  | .timeoutErr => .error (.processing "Request timeout")
  | .unexpected m => .error (.processing ("Unexpected error: " ++ m))

/-- Shallow embedding of `MessageProcessor.process` on the paths the
claims exercise: the partition gate first (raising `ProcessingError`
when the message is not owned), then the outbound forward with its
error mapping.  Routing and endpoint resolution sit between the two in
the source and are irrelevant to, and bypassed by, every claim. -/
def processor_process (pm : Option PartitionManager) (nowMs : Nat)
    (full_message : Val) (http : HttpOutcome) :
    Except PyExc (Val × Nat × List (String × String)) :=
  match pm with
  | some mgr =>
      if !should_process_message mgr nowMs full_message then
        .error (.processing "Message assigned to different partition")
      else forwardOutcome http
  | none => forwardOutcome http

/-- One observable side effect of the worker: a cache (state-store)
write or a queue publish, in program order. -/
inductive Effect where
  | cacheSet (key : String) (value : Val)
  | publish (queueName : String) (value : Val)

/-- The worker settings and queue names `_handle_message` reads from
the configuration, with the defaults of `openhqm/config/settings.py`. -/
structure WorkerCfg where
  worker_id : String
  max_retries : Nat := 3
  response_queue_name : String := "openhqm-responses"
  dlq_name : String := "openhqm-dlq"

/-- A response-header association list as the JSON value the worker
stores and publishes. -/
def headersVal (hs : List (String × String)) : Val :=
  .vdict (hs.map (fun p => (p.1, .vstr p.2)))

/-- Shallow embedding of `Worker._send_to_dlq`: publish the original
message extended (dict-merge) with `failed_at`, `worker_id` and
`error`. -/
def send_to_dlq (cfg : WorkerCfg) (now : String) (msg : List (String × Val))
    (err : String) : Effect :=
  .publish cfg.dlq_name
    (.vdict (dictMerge msg
      [("failed_at", .vstr now), ("worker_id", .vstr cfg.worker_id),
       ("error", .vstr err)]))

/-- Shallow embedding of `Worker._mark_failed`: write the FAILED
request state and an error-only response record. -/
def mark_failed (now : String) (cid : String) (err : String) : List Effect :=
  [.cacheSet ("req:" ++ cid ++ ":meta")
      (.vdict [("status", .vstr "FAILED"), ("updated_at", .vstr now)]),
   .cacheSet ("resp:" ++ cid)
      (.vdict [("error", .vstr err), ("completed_at", .vstr now)])]

/-- Reading `message.get("metadata", \x7b\x7d).get("retry_count", 0)`:
`some` of the count (0 when absent), `none` where the source would
raise (metadata or the count of an unusable type). -/
def readRetryCount (msg : List (String × Val)) : Option Int :=
  match dictFind msg "metadata" with
  | none => some 0
  | some (.vdict md) =>
      match dictFind md "retry_count" with
      | none => some 0
      | some (.vint n) => some n
      | some _ => none
  | some _ => none

/-- Incrementing the retry count in place,
`message["metadata"]["retry_count"] = retry_count + 1`: `none` where
the source would raise `KeyError`/`TypeError`. -/
def bumpRetryCount (msg : List (String × Val)) (rc : Int) :
    Option (List (String × Val)) :=
  match dictFind msg "metadata" with
  | some (.vdict md) =>
      some (dictSet msg "metadata" (.vdict (dictSet md "retry_count" (.vint (rc + 1)))))
  | _ => none

/-- Shallow embedding of `Worker._handle_message` as the list of cache
writes and queue publishes it performs, given the message and the
outcome of `processor.process`.  The wall clock and the measured
processing time are the explicit `now` and `ptimeMs` arguments.  The
second component is `some` of an exception only on inputs where the
source itself would raise out of the handler (malformed metadata);
every claim stays on the `none` side. -/
def handle_message (cfg : WorkerCfg) (now : String) (ptimeMs : Nat)
    (msg : List (String × Val))
    (proc : Except PyExc (Val × Nat × List (String × String))) :
    List Effect × Option PyExc :=
  let cid := pyStr (dictGet msg "correlation_id")
  let metaKey := "req:" ++ cid ++ ":meta"
  let processingSet : Effect :=
    .cacheSet metaKey
      (.vdict [("status", .vstr "PROCESSING"),
               ("submitted_at", dictGet msg "timestamp"),
               ("updated_at", .vstr now)])
  match proc with
  | .ok (result, status_code, rheaders) =>
      ([processingSet,
        .cacheSet metaKey
          (.vdict [("status", .vstr "COMPLETED"),
                   ("submitted_at", dictGet msg "timestamp"),
                   ("updated_at", .vstr now)]),
        .cacheSet ("resp:" ++ cid)
          (.vdict [("result", result), ("status_code", .vint status_code),
                   ("headers", headersVal rheaders),
                   ("processing_time_ms", .vint ptimeMs),
                   ("completed_at", .vstr now)]),
        .publish cfg.response_queue_name
          (.vdict [("correlation_id", dictGet msg "correlation_id"),
                   ("result", result), ("status_code", .vint status_code),
                   ("headers", headersVal rheaders),
                   ("status", .vstr "COMPLETED"), ("timestamp", .vstr now),
                   ("processing_time_ms", .vint ptimeMs)])], none)
  | .error e =>
      if isRetryableError e then
        match readRetryCount msg with
        | none => ([processingSet], some (.other "TypeError"))
        | some rc =>
            if rc < (cfg.max_retries : Int) then
              match bumpRetryCount msg rc with
              | some msg2 =>
                  ([processingSet, .publish "requests" (.vdict msg2)], none)
              | none => ([processingSet], some (.other "KeyError"))
            else
              ([processingSet, send_to_dlq cfg now msg (excMessage e)], none)
      else if isFatalError e then
        ([processingSet, send_to_dlq cfg now msg (excMessage e)] ++
          mark_failed now cid (excMessage e), none)
      else
        ([processingSet, send_to_dlq cfg now msg (excMessage e)] ++
          mark_failed now cid (excMessage e), none)

/-- Request status enumeration from `openhqm/api/models.py`. -/
inductive RequestStatus where
  | PENDING
  | PROCESSING
  | COMPLETED
  | FAILED
  | TIMEOUT
deriving DecidableEq

/-- Python `RequestStatus(s)`: the member with value `s`, or `none`
where the constructor raises `ValueError`. -/
def requestStatusOf (s : String) : Option RequestStatus :=
  if s = "PENDING" then some .PENDING
  else if s = "PROCESSING" then some .PROCESSING
  else if s = "COMPLETED" then some .COMPLETED
  else if s = "FAILED" then some .FAILED
  else if s = "TIMEOUT" then some .TIMEOUT
  else none

/-- The `ResultResponse` model of `openhqm/api/models.py`.  Optional
JSON fields hold `Val.vnull` for Python `None`; `completed_at` is kept
as the source timestamp string (`datetime.fromisoformat` is modelled as
accepting the strings the worker writes). -/
structure ResultResponse where
  correlation_id : String
  status : RequestStatus
  result : Val := .vnull
  headers : Val := .vnull
  status_code : Val := .vnull
  error : Val := .vnull
  processing_time_ms : Val := .vnull
  completed_at : Option String := none

/-- Shallow embedding of the `get_response` handler of
`openhqm/api/routes.py`, as a function of the two cache reads it
performs (`Val.vnull` models a missing cache entry, i.e. Python
`None`).  The result is the response model or the HTTP error status the
handler raises: 404 when the request state is missing or falsy, 500
where the source would hit an unexpected exception (unknown status
string, malformed records). -/
def get_response (cid : String) (meta respData : Val) :
    Except Nat ResultResponse :=
  if !pyTruthy meta then .error 404
  else
    match meta with
    | .vdict m =>
        match dictFind m "status" with
        | some (.vstr s) =>
            match requestStatusOf s with
            | none => .error 500
            | some st =>
                if st = .COMPLETED && pyTruthy respData then
                  match respData with
                  | .vdict d =>
                      match dictFind d "completed_at" with
                      | some (.vstr ca) =>
                          .ok { correlation_id := cid, status := st,
                                result := dictGet d "result",
                                headers := dictGet d "headers",
                                status_code := dictGet d "status_code",
                                processing_time_ms := dictGet d "processing_time_ms",
                                completed_at := some ca }
                      | _ => .error 500
                  | _ => .error 500
                else if st = .FAILED then
                  if pyTruthy respData then
                    match respData with
                    | .vdict d =>
                        match dictFind d "completed_at" with
                        | some (.vstr ca) =>
                            .ok { correlation_id := cid, status := st,
                                  error := dictGet d "error",
                                  completed_at := some ca }
                        | _ => .error 500
                    | _ => .error 500
                  else
                    .ok { correlation_id := cid, status := st,
                          error := .vstr "Processing failed" }
                else
                  .ok { correlation_id := cid, status := st }
        | _ => .error 500
    | _ => .error 500

lemma getNestedKeys_null (ks : List String) : getNestedKeys .vnull ks = .vnull := by
  cases ks <;> rfl

lemma dictGet_eq_null_of_find_none (d : List (String × Val)) (k : String)
    (h : dictFind d k = none) : dictGet d k = .vnull := by
  induction d with
  | nil => rfl
  | cons hd tl ih =>
      obtain ⟨k1, v1⟩ := hd
      by_cases hk : k1 = k
      · simp [dictFind, hk] at h
      · simp only [dictFind, hk, if_false] at h
        simp only [dictGet, hk, if_false]
        exact ih h

lemma getNestedKeys_append (v : Val) (xs ys : List String) :
    getNestedKeys v (xs ++ ys) = getNestedKeys (getNestedKeys v xs) ys := by
  induction xs generalizing v with
  | nil => rfl
  | cons x xs ih =>
      cases v with
      | vdict d => exact ih (dictGet d x)
      | vnull => simp [getNestedKeys, getNestedKeys_null]
      | vbool b => simp [getNestedKeys, getNestedKeys_null]
      | vint n => simp [getNestedKeys, getNestedKeys_null]
      | vstr s => simp [getNestedKeys, getNestedKeys_null]
      | vlist l => simp [getNestedKeys, getNestedKeys_null]

/-- C9: for every dictionary and every dot-separated path,
`get_nested_value` is total (it is a Lean function, so it returns on
every input without raising), and it returns `None` whenever some
prefix of the split path resolves to a non-dictionary value or to a
dictionary missing the next key. -/
theorem C9_get_nested_value_total_none
    (data : Val) (path : String) (pre : List String) (k : String)
    (post : List String)
    (hsplit : pySplitDot path = pre ++ k :: post)
    (hbad : (∀ d, getNestedKeys data pre ≠ Val.vdict d) ∨
            (∃ d, getNestedKeys data pre = Val.vdict d ∧ dictFind d k = none)) :
    get_nested_value data path = Val.vnull := by
  unfold get_nested_value
  rw [hsplit, getNestedKeys_append]
  rcases hbad with h | ⟨d, hd, hfind⟩
  · cases hv : getNestedKeys data pre with
    | vdict d => exact absurd hv (h d)
    | vnull => rfl
    | vbool b => rfl
    | vint n => rfl
    | vstr s => rfl
    | vlist l => rfl
  · rw [hd]
    show getNestedKeys (dictGet d k) post = Val.vnull
    rw [dictGet_eq_null_of_find_none d k hfind, getNestedKeys_null]

/-- Witness for C9 at a concrete input: in `\x7b"a": 1\x7d` the path
`"a.b"` walks into the non-dict value `1`, and the lookup returns
`None` rather than raising. -/
theorem C9_get_nested_value_total_none_witness :
    (pySplitDot "a.b" = ["a"] ++ "b" :: []) ∧
    get_nested_value (Val.vdict [("a", Val.vint 1)]) "a.b" = Val.vnull :=
  ⟨by decide,
   C9_get_nested_value_total_none (Val.vdict [("a", Val.vint 1)]) "a.b"
     ["a"] "b" [] (by decide) (Or.inl (fun d h => nomatch h))⟩

/-- C10: an enabled non-default route whose `match_field` is unset
matches every message, despite carrying neither `is_default`,
`match_value` nor `match_pattern`. -/
theorem C10_route_without_criteria_matches_all
    (route : Route) (message : Val)
    (hnd : route.is_default = false)
    (hf : route.match_field = none) :
    match_route route message = true := by
  simp [match_route, hnd, hf, optStrTruthy]

/-- Witness for C10: a concrete enabled non-default route with no
matching criteria matches the empty message. -/
theorem C10_route_without_criteria_matches_all_witness :
    (Route.is_default { name := "open", endpoint := "e" } = false) ∧
    (Route.match_field { name := "open", endpoint := "e" } = none) ∧
    match_route { name := "open", endpoint := "e" } (Val.vdict []) = true :=
  ⟨rfl, rfl,
   C10_route_without_criteria_matches_all { name := "open", endpoint := "e" }
     (Val.vdict []) rfl rfl⟩

lemma mem_assign_worker_partitions (N W w p : Nat) :
    p ∈ assign_worker_partitions N W w ↔ (p < N ∧ p % W = w) := by
  unfold assign_worker_partitions
  rw [List.mem_filter, List.mem_range]
  simp

/-- C7: after `assign_worker_partitions` with `w < W`, the owned set is
exactly the partitions `p < N` with `p % W = w`; owned sets of distinct
worker indices are disjoint; and every partition below `N` is owned by
some worker index below `W`. -/
theorem C7_worker_partitions_cover_disjoint
    (N W w : Nat) (hw : w < W) :
    (∀ p, p ∈ assign_worker_partitions N W w ↔ (p < N ∧ p % W = w))
    ∧ (∀ w2, w2 < W → w2 ≠ w →
        ∀ p, p ∈ assign_worker_partitions N W w →
          p ∉ assign_worker_partitions N W w2)
    ∧ (∀ p, p < N → ∃ u, u < W ∧ p ∈ assign_worker_partitions N W u) := by
  refine ⟨fun p => mem_assign_worker_partitions N W w p, ?_, ?_⟩
  · intro w2 _ hne p hp hp2
    have h1 := (mem_assign_worker_partitions N W w p).mp hp
    have h2 := (mem_assign_worker_partitions N W w2 p).mp hp2
    exact hne (h2.2 ▸ h1.2)
  · intro p hp
    have hWpos : 0 < W := lt_of_le_of_lt (Nat.zero_le w) hw
    exact ⟨p % W, Nat.mod_lt p hWpos,
      (mem_assign_worker_partitions N W (p % W) p).mpr ⟨hp, rfl⟩⟩

/-- Witness for C7 at `N = 4`, `W = 2`, `w = 0`: partition 2 is owned
exactly because `2 % 2 = 0`. -/
theorem C7_worker_partitions_cover_disjoint_witness :
    (0 < 2) ∧ (2 ∈ assign_worker_partitions 4 2 0 ↔ (2 < 4 ∧ 2 % 2 = 0)) :=
  ⟨by decide, (C7_worker_partitions_cover_disjoint 4 2 0 (by decide)).1 2⟩

lemma hexVal_hexChar : ∀ n, n < 16 → hexVal (hexChar n) = n := by decide

lemma be32_lt (x : Nat) : ∀ b ∈ be32 x, b < 256 := by
  intro b hb
  simp only [be32, List.mem_cons, List.not_mem_nil, or_false] at hb
  rcases hb with h | h | h | h <;> omega

lemma sha256Bytes_lt (msg : List Nat) : ∀ b ∈ sha256Bytes msg, b < 256 := by
  intro b hb
  simp only [sha256Bytes, List.mem_append] at hb
  rcases hb with ((((((h | h) | h) | h) | h) | h) | h) | h <;>
    exact be32_lt _ b h

lemma intOfHex_hexOfBytes (bs : List Nat) (h : ∀ b ∈ bs, b < 256) :
    ∀ acc, List.foldl (fun a c => 16 * a + hexVal c) acc (hexOfBytes bs) =
      List.foldl (fun a b => 256 * a + b) acc bs := by
  induction bs with
  | nil => intro acc; rfl
  | cons b bs ih =>
      intro acc
      have hb : b < 256 := h b (List.mem_cons_self b bs)
      have hhi : b / 16 < 16 := by omega
      have hlo : b % 16 < 16 := Nat.mod_lt _ (by norm_num)
      show List.foldl _ acc (byteHex b ++ hexOfBytes bs) = _
      rw [List.foldl_append]
      simp only [byteHex, List.foldl_cons, List.foldl_nil,
        hexVal_hexChar _ hhi, hexVal_hexChar _ hlo]
      rw [ih (fun x hx => h x (List.mem_cons_of_mem b hx))]
      congr 1
      omega

/-- Reading the lowercase hex digest back with `int(-, 16)` recovers
the digest bytes as a big-endian integer: the numeric reading of
`_hash_key` agrees with the spec reading `sha256(key)` as a number. -/
lemma hash_key_eq_sha256Int (key : String) :
    hash_key key = sha256Int (strBytes key) := by
  unfold hash_key sha256Int intOfHex
  exact intOfHex_hexOfBytes _ (sha256Bytes_lt _) 0

/-- C6: under the hash, sticky and key strategies, the assigned
partition is the SHA-256 digest of the UTF-8 key read as an integer,
reduced modulo the partition count; it is therefore below the count
(when that is positive) and identical across calls, processes, times
and those three strategies. -/
theorem C6_assign_partition_is_sha256_mod
    (cfg : PartitionConfig) (nowMs : Nat) (key : String)
    (hstrat : cfg.strategy = .hash ∨ cfg.strategy = .sticky ∨ cfg.strategy = .key)
    (hN : 1 ≤ cfg.partition_count) :
    assign_partition cfg nowMs key = sha256Int (strBytes key) % cfg.partition_count
    ∧ assign_partition cfg nowMs key < cfg.partition_count
    ∧ (∀ (cfg2 : PartitionConfig) (nowMs2 : Nat),
        cfg2.partition_count = cfg.partition_count →
        (cfg2.strategy = .hash ∨ cfg2.strategy = .sticky ∨ cfg2.strategy = .key) →
        assign_partition cfg2 nowMs2 key = assign_partition cfg nowMs key) := by
  have hmain : ∀ (c : PartitionConfig) (t : Nat),
      (c.strategy = .hash ∨ c.strategy = .sticky ∨ c.strategy = .key) →
      assign_partition c t key = sha256Int (strBytes key) % c.partition_count := by
    intro c t hc
    rcases hc with h | h | h <;>
      simp [assign_partition, h, hash_key_eq_sha256Int]
  refine ⟨hmain cfg nowMs hstrat, ?_, ?_⟩
  · rw [hmain cfg nowMs hstrat]
    exact Nat.mod_lt _ hN
  · intro cfg2 t2 hcount h2
    rw [hmain cfg2 t2 h2, hmain cfg nowMs hstrat, hcount]

/-- Witness for C6 at a concrete configuration and key. -/
theorem C6_assign_partition_is_sha256_mod_witness :
    (PartitionConfig.strategy
        { enabled := true, strategy := .hash, partition_count := 4 } =
      PartitionStrategy.hash)
    ∧ (1 ≤ PartitionConfig.partition_count
        { enabled := true, strategy := .hash, partition_count := 4 })
    ∧ assign_partition
        { enabled := true, strategy := .hash, partition_count := 4 } 0 "sess-X" =
        sha256Int (strBytes "sess-X") % 4 :=
  ⟨rfl, by decide,
   (C6_assign_partition_is_sha256_mod
     { enabled := true, strategy := .hash, partition_count := 4 } 0 "sess-X"
     (Or.inl rfl) (by decide)).1⟩

/-- Kernel cross-check of the whole partition pipeline against CPython:
`int(hashlib.sha256(b"sess-X").hexdigest(), 16) % 4 == 3`. -/
theorem assign_partition_sessX_sanity :
    assign_partition { enabled := true, strategy := .hash, partition_count := 4 }
      0 "sess-X" = 3 := by
  decide

lemma mem_insertByPriority (r : Route) (l : List Route) (x : Route) :
    x ∈ insertByPriority r l ↔ x = r ∨ x ∈ l := by
  induction l with
  | nil => simp [insertByPriority]
  | cons y ys ih =>
      unfold insertByPriority
      by_cases hc : r.priority ≤ y.priority
      · simp only [if_pos hc, List.mem_cons, ih]
        tauto
      · simp only [if_neg hc, List.mem_cons]

lemma sorted_insertByPriority (r : Route) (l : List Route)
    (h : l.Pairwise (fun a b => b.priority ≤ a.priority)) :
    (insertByPriority r l).Pairwise (fun a b => b.priority ≤ a.priority) := by
  induction l with
  | nil => exact List.pairwise_singleton _ r
  | cons y ys ih =>
      rw [List.pairwise_cons] at h
      obtain ⟨hy, hys⟩ := h
      unfold insertByPriority
      by_cases hc : r.priority ≤ y.priority
      · rw [if_pos hc, List.pairwise_cons]
        refine ⟨?_, ih hys⟩
        intro z hz
        rcases (mem_insertByPriority r ys z).mp hz with rfl | hzys
        · exact hc
        · exact hy z hzys
      · rw [if_neg hc, List.pairwise_cons]
        push_neg at hc
        refine ⟨?_, List.pairwise_cons.mpr ⟨hy, hys⟩⟩
        intro z hz
        rcases List.mem_cons.mp hz with rfl | hzys
        · exact le_of_lt hc
        · exact le_trans (hy z hzys) (le_of_lt hc)

lemma mem_foldl_insertByPriority (rs : List Route) :
    ∀ (acc : List Route) (x : Route),
      x ∈ rs.foldl (fun a r => insertByPriority r a) acc ↔ x ∈ acc ∨ x ∈ rs := by
  induction rs with
  | nil => intro acc x; simp
  | cons r rs ih =>
      intro acc x
      simp only [List.foldl_cons, List.mem_cons]
      rw [ih, mem_insertByPriority]
      tauto

lemma sorted_foldl_insertByPriority (rs : List Route) :
    ∀ acc, acc.Pairwise (fun a b => b.priority ≤ a.priority) →
      (rs.foldl (fun a r => insertByPriority r a) acc).Pairwise
        (fun a b => b.priority ≤ a.priority) := by
  induction rs with
  | nil => intro acc h; exact h
  | cons r rs ih => intro acc h; exact ih _ (sorted_insertByPriority r acc h)

lemma mem_sortRoutes (rs : List Route) (x : Route) :
    x ∈ sortRoutes rs ↔ x ∈ rs := by
  unfold sortRoutes
  rw [mem_foldl_insertByPriority]
  simp

lemma sorted_sortRoutes (rs : List Route) :
    (sortRoutes rs).Pairwise (fun a b => b.priority ≤ a.priority) :=
  sorted_foldl_insertByPriority rs [] (by simp)

lemma find?_sorted_priority_max (l : List Route) (m : Val) (r : Route)
    (hs : l.Pairwise (fun a b => b.priority ≤ a.priority))
    (hf : l.find? (fun x => match_route x m) = some r) :
    ∀ r2 ∈ l, match_route r2 m = true → r2.priority ≤ r.priority := by
  induction l with
  | nil => simp at hf
  | cons x xs ih =>
      rw [List.pairwise_cons] at hs
      intro r2 hr2 hm
      by_cases hx : match_route x m = true
      · rw [List.find?_cons_of_pos (p := fun x => match_route x m) _ hx] at hf
        obtain rfl := Option.some.inj hf
        rcases List.mem_cons.mp hr2 with rfl | h2
        · exact le_refl _
        · exact hs.1 r2 h2
      · rw [List.find?_cons_of_neg (p := fun x => match_route x m) _
          (by simpa using hx)] at hf
        rcases List.mem_cons.mp hr2 with rfl | h2
        · exact absurd hm hx
        · exact ih hs.2 hf r2 h2 hm

/-- C4 (amended): the engine scans the enabled routes in descending
priority order and the first match wins: a selected route is enabled,
comes from the configuration and matches the message, and no enabled
matching route outranks it; in particular when two routes with distinct
priorities both match, the higher priority is selected.  A route with
`is_default = true` matches every message, so it is selected whenever
it precedes every matching non-default route in priority order — not
only when no non-default route matches. -/
theorem C4_priority_selection
    (routes : List Route) (message : Val) (r : Route)
    (h : route_select routes message = some r) :
    r.enabled = true ∧ r ∈ routes ∧ match_route r message = true
    ∧ (∀ rd : Route, rd.is_default = true → match_route rd message = true)
    ∧ ∀ r2 ∈ routes, r2.enabled = true → match_route r2 message = true →
        r2.priority ≤ r.priority := by
  unfold route_select at h
  have hp : match_route r message = true := by simpa using List.find?_some h
  have hmem : r ∈ routes_sorted routes := List.mem_of_find?_eq_some h
  unfold routes_sorted at h hmem
  have hmem2 := List.mem_filter.mp ((mem_sortRoutes _ _).mp hmem)
  refine ⟨by simpa using hmem2.2, hmem2.1, hp, ?_, ?_⟩
  · intro rd hrd
    simp [match_route, hrd]
  · intro r2 hr2 hen hm
    exact find?_sorted_priority_max _ message r (sorted_sortRoutes _) h r2
      ((mem_sortRoutes _ _).mpr (List.mem_filter.mpr ⟨hr2, by simpa using hen⟩)) hm

/-- Counterexample to C4 as stated: a default route with priority 10 is
selected although an enabled non-default route with priority 5 matches
the message, so a default route is not selected only when no
non-default route matches. -/
theorem C4_default_route_precedence_counterexample :
    route_select
      [{ name := "dflt", is_default := true, priority := 10, endpoint := "d" },
       { name := "spec", match_field := some "type", match_value := some "a", priority := 5, endpoint := "s" }]
      (Val.vdict [("type", Val.vstr "a")]) =
      some { name := "dflt", is_default := true, priority := 10, endpoint := "d" }
    ∧ match_route
        { name := "spec", match_field := some "type", match_value := some "a", priority := 5, endpoint := "s" }
        (Val.vdict [("type", Val.vstr "a")]) = true
    ∧ Route.is_default
        { name := "spec", match_field := some "type", match_value := some "a", priority := 5, endpoint := "s" } = false
    ∧ Route.enabled
        { name := "spec", match_field := some "type", match_value := some "a", priority := 5, endpoint := "s" } = true :=
  ⟨rfl, rfl, rfl, rfl⟩

/-- Witness for C4 at a concrete configuration: the selected route is
enabled and outranks the other matching route. -/
theorem C4_priority_selection_witness :
    (route_select
      [{ name := "lo", priority := 3, endpoint := "e" },
       { name := "hi", is_default := true, priority := 7, endpoint := "d" }]
      (Val.vdict []) =
      some { name := "hi", is_default := true, priority := 7, endpoint := "d" })
    ∧ Route.enabled { name := "hi", is_default := true, priority := 7, endpoint := "d" } = true :=
  ⟨rfl,
   (C4_priority_selection
     [{ name := "lo", priority := 3, endpoint := "e" },
      { name := "hi", is_default := true, priority := 7, endpoint := "d" }]
     (Val.vdict [])
     { name := "hi", is_default := true, priority := 7, endpoint := "d" } rfl).1⟩

lemma match_route_eval (route : Route) (message : Val) (f : String)
    (hnd : route.is_default = false) (hf : route.match_field = some f)
    (hft : f.isEmpty = false) :
    match_route route message =
      (match get_nested_value message f with
       | .vnull => false
       | v =>
           if optStrTruthy route.match_value
           then pyStr v == route.match_value.getD ""
           else
             match route.match_pattern with
             | some p => reMatch p (pyStr v).data
             | none => false) := by
  unfold match_route
  rw [hnd, hf]
  simp [optStrTruthy, hft]

/-- C5 (amended): for a non-default route with a truthy `match_field`
that resolves in the message, matching compares by `re.match`, which is
anchored at the start only: when `match_value` is falsy and a pattern
is set, the route matches exactly when the regex matches some leading
segment of the string-coerced field value (a match covering only a
proper prefix counts); when `match_value` is truthy the comparison is
exact string equality on the coerced value. -/
theorem C5_pattern_prefix_value_equality
    (route : Route) (message : Val) (f : String)
    (hnd : route.is_default = false)
    (hf : route.match_field = some f)
    (hft : f.isEmpty = false)
    (hval : get_nested_value message f ≠ Val.vnull) :
    (∀ p, route.match_pattern = some p → optStrTruthy route.match_value = false →
        match_route route message =
          reMatch p (pyStr (get_nested_value message f)).data)
    ∧ (∀ s, route.match_value = some s → s.isEmpty = false →
        match_route route message =
          (pyStr (get_nested_value message f) == s)) := by
  rw [match_route_eval route message f hnd hf hft]
  cases hv : get_nested_value message f
  case vnull => exact absurd hv hval
  all_goals refine ⟨fun p hp hmv => ?_, fun s hs hse => ?_⟩
  all_goals first
    | (rw [hp, hmv]; rfl)
    | (rw [hs]; simp [optStrTruthy, hse])

/-- Counterexample to C5 as stated: the pattern `ab` matches only a
proper prefix of the field value `"abc"` (a full match fails), yet the
route matches the message, because the source uses `re.match`, not
`re.fullmatch`. -/
theorem C5_proper_prefix_match_counterexample :
    match_route { name := "pat", match_field := some "type", match_pattern := some (Reg.cat (Reg.chr 'a') (Reg.chr 'b')), endpoint := "e" } (Val.vdict [("type", Val.vstr "abc")]) = true
    ∧ reFullmatch (Reg.cat (Reg.chr 'a') (Reg.chr 'b')) (String.data "abc") = false
    ∧ pyStr (get_nested_value (Val.vdict [("type", Val.vstr "abc")]) "type") = "abc" :=
  ⟨rfl, rfl, rfl⟩

/-- Witness for C5 at the same concrete route and message: the route
match agrees with the anchored-at-start `re.match` semantics. -/
theorem C5_pattern_prefix_value_equality_witness :
    ((String.isEmpty "type") = false)
    ∧ (get_nested_value (Val.vdict [("type", Val.vstr "abc")]) "type" ≠ Val.vnull)
    ∧ match_route { name := "pat", match_field := some "type", match_pattern := some (Reg.cat (Reg.chr 'a') (Reg.chr 'b')), endpoint := "e" } (Val.vdict [("type", Val.vstr "abc")]) =
        reMatch (Reg.cat (Reg.chr 'a') (Reg.chr 'b')) (String.data (pyStr (get_nested_value (Val.vdict [("type", Val.vstr "abc")]) "type"))) :=
  ⟨rfl,
   by
     intro h
     rw [show get_nested_value (Val.vdict [("type", Val.vstr "abc")]) "type" =
       Val.vstr "abc" from rfl] at h
     exact Val.noConfusion h,
   (C5_pattern_prefix_value_equality
     { name := "pat", match_field := some "type", match_pattern := some (Reg.cat (Reg.chr 'a') (Reg.chr 'b')), endpoint := "e" }
     (Val.vdict [("type", Val.vstr "abc")]) "type" rfl rfl rfl
     (by
        intro h
        rw [show get_nested_value (Val.vdict [("type", Val.vstr "abc")]) "type" =
          Val.vstr "abc" from rfl] at h
        exact Val.noConfusion h)).1
     (Reg.cat (Reg.chr 'a') (Reg.chr 'b')) rfl rfl⟩

/-- C8: `get_response` answers 404 when no request state exists; on
COMPLETED with a response record it returns the record result, headers,
status code, processing time and completion timestamp; on FAILED it
returns the record error, or the synthesized "Processing failed" when
the record is absent; on PENDING or PROCESSING it returns only the
correlation id and the status (every other response field keeps its
`None` default). -/
theorem C8_get_response_cases (cid : String) :
    (∀ resp, get_response cid Val.vnull resp = .error 404)
    ∧ (∀ m d ca, dictFind m "status" = some (.vstr "COMPLETED") →
        dictFind d "completed_at" = some (.vstr ca) →
        get_response cid (.vdict m) (.vdict d) =
          .ok { correlation_id := cid, status := .COMPLETED,
                result := dictGet d "result", headers := dictGet d "headers",
                status_code := dictGet d "status_code",
                processing_time_ms := dictGet d "processing_time_ms",
                completed_at := some ca })
    ∧ (∀ m d ca, dictFind m "status" = some (.vstr "FAILED") →
        dictFind d "completed_at" = some (.vstr ca) →
        get_response cid (.vdict m) (.vdict d) =
          .ok { correlation_id := cid, status := .FAILED,
                error := dictGet d "error", completed_at := some ca })
    ∧ (∀ m, dictFind m "status" = some (.vstr "FAILED") →
        get_response cid (.vdict m) Val.vnull =
          .ok { correlation_id := cid, status := .FAILED,
                error := .vstr "Processing failed" })
    ∧ (∀ m st resp, dictFind m "status" = some (.vstr st) →
        (st = "PENDING" ∨ st = "PROCESSING") →
        get_response cid (.vdict m) resp =
          .ok { correlation_id := cid,
                status := if st = "PENDING" then .PENDING else .PROCESSING }) := by
  refine ⟨fun resp => rfl, ?_, ?_, ?_, ?_⟩
  · intro m d ca hst hca
    have hm : m.isEmpty = false := by
      cases m with
      | nil => simp [dictFind] at hst
      | cons a l => rfl
    have hd : d.isEmpty = false := by
      cases d with
      | nil => simp [dictFind] at hca
      | cons a l => rfl
    simp only [get_response, pyTruthy, hm, hst, hca, requestStatusOf]
    simp [hd]
  · intro m d ca hst hca
    have hm : m.isEmpty = false := by
      cases m with
      | nil => simp [dictFind] at hst
      | cons a l => rfl
    have hd : d.isEmpty = false := by
      cases d with
      | nil => simp [dictFind] at hca
      | cons a l => rfl
    simp only [get_response, pyTruthy, hm, hst, hca, requestStatusOf]
    simp [hd]
  · intro m hst
    have hm : m.isEmpty = false := by
      cases m with
      | nil => simp [dictFind] at hst
      | cons a l => rfl
    simp only [get_response, pyTruthy, hm, hst, requestStatusOf]
    simp
  · intro m st resp hst hpp
    have hm : m.isEmpty = false := by
      cases m with
      | nil => simp [dictFind] at hst
      | cons a l => rfl
    rcases hpp with rfl | rfl
    · simp only [get_response, pyTruthy, hm, hst, requestStatusOf]
      simp
    · simp only [get_response, pyTruthy, hm, hst, requestStatusOf]
      simp

/-- Witness for C8: a FAILED state with no response record yields the
synthesized error string. -/
theorem C8_get_response_cases_witness :
    (dictFind [("status", Val.vstr "FAILED")] "status" = some (Val.vstr "FAILED"))
    ∧ get_response "cid1" (Val.vdict [("status", Val.vstr "FAILED")]) Val.vnull =
        .ok { correlation_id := "cid1", status := .FAILED,
              error := Val.vstr "Processing failed" } :=
  ⟨rfl, (C8_get_response_cases "cid1").2.2.2.1 [("status", Val.vstr "FAILED")] rfl⟩

/-- C1 (code evaluation at the failing input): a network failure of the
outbound forward is raised as the base `ProcessingError`, which is not
a `RetryableError`; the worker therefore never reaches its
retry-republish branch even with `retry_count = 0 < max_retries = 3`,
and instead runs the generic handler: DLQ publish plus FAILED state, no
republish to the request queue and no retry-count increment. -/
theorem C1_network_error_not_retried :
    processor_process none 0 (Val.vdict []) (.clientError "boom") =
      .error (PyExc.processing "Failed to proxy request: boom")
    ∧ isRetryableError (PyExc.processing "Failed to proxy request: boom") = false
    ∧ handle_message { worker_id := "w1" } "T" 5
        [("correlation_id", Val.vstr "c1"), ("payload", Val.vdict []),
         ("metadata", Val.vdict [("retry_count", Val.vint 0)]),
         ("headers", Val.vdict []), ("timestamp", Val.vstr "T0")]
        (.error (PyExc.processing "Failed to proxy request: boom")) =
      ([Effect.cacheSet "req:c1:meta"
          (Val.vdict [("status", Val.vstr "PROCESSING"),
                      ("submitted_at", Val.vstr "T0"),
                      ("updated_at", Val.vstr "T")]),
        Effect.publish "openhqm-dlq"
          (Val.vdict [("correlation_id", Val.vstr "c1"), ("payload", Val.vdict []),
                      ("metadata", Val.vdict [("retry_count", Val.vint 0)]),
                      ("headers", Val.vdict []), ("timestamp", Val.vstr "T0"),
                      ("failed_at", Val.vstr "T"), ("worker_id", Val.vstr "w1"),
                      ("error", Val.vstr "Failed to proxy request: boom")]),
        Effect.cacheSet "req:c1:meta"
          (Val.vdict [("status", Val.vstr "FAILED"), ("updated_at", Val.vstr "T")]),
        Effect.cacheSet "resp:c1"
          (Val.vdict [("error", Val.vstr "Failed to proxy request: boom"),
                      ("completed_at", Val.vstr "T")])], none) :=
  ⟨rfl, rfl, rfl⟩

/-- C2 (code evaluation at the failing input): with partitioning
enabled, one partition and none of it owned by this worker (worker
index 1 of 2), `should_process_message` is false and `process` raises
`ProcessingError("Message assigned to different partition")` instead of
returning the skipped triple with status 200. -/
theorem C2_partition_skip_raises :
    should_process_message
      { config := { enabled := true, strategy := .sticky, partition_count := 1 },
        worker_id := "w1",
        worker_partitions := assign_worker_partitions 1 2 1 } 0
      (Val.vdict [("correlation_id", Val.vstr "c2"),
                  ("metadata", Val.vdict [("session_id", Val.vstr "sess-X")])]) = false
    ∧ processor_process
        (some { config := { enabled := true, strategy := .sticky, partition_count := 1 },
                worker_id := "w1",
                worker_partitions := assign_worker_partitions 1 2 1 }) 0
        (Val.vdict [("correlation_id", Val.vstr "c2"),
                    ("metadata", Val.vdict [("session_id", Val.vstr "sess-X")])])
        (.ok (Val.vdict []) 200 []) =
      .error (.processing "Message assigned to different partition") :=
  ⟨rfl, rfl⟩

/-- C3 (code evaluation at the failing input): a retryable error with
`retry_count = 3 = max_retries` sends the extended message to the DLQ
and does not republish it, but the handler performs no further cache
write: the request state is never set to FAILED (it stays PROCESSING),
and no error response record is stored. -/
theorem C3_retry_exhausted_dlq_but_no_failed_state :
    handle_message { worker_id := "w9" } "T" 7
      [("correlation_id", Val.vstr "c3"), ("payload", Val.vdict []),
       ("metadata", Val.vdict [("retry_count", Val.vint 3)]),
       ("timestamp", Val.vstr "T0")]
      (.error (PyExc.retryable "Still failing")) =
      ([Effect.cacheSet "req:c3:meta"
          (Val.vdict [("status", Val.vstr "PROCESSING"),
                      ("submitted_at", Val.vstr "T0"),
                      ("updated_at", Val.vstr "T")]),
        Effect.publish "openhqm-dlq"
          (Val.vdict [("correlation_id", Val.vstr "c3"), ("payload", Val.vdict []),
                      ("metadata", Val.vdict [("retry_count", Val.vint 3)]),
                      ("timestamp", Val.vstr "T0"),
                      ("failed_at", Val.vstr "T"), ("worker_id", Val.vstr "w9"),
                      ("error", Val.vstr "Still failing")])], none) :=
  rfl
